import Mathlib

/-!
Verification of the crossover / orbit-trajectory-match identification engine
of `xo_otm_identify/preproc.py` (class `PreProcessor`).

The geometry library (shapely) is an external collaborator: geometric
operations (line intersection, buffering, point-in-buffer tests) are taken
as oracle parameters, while everything the repository itself computes —
AOI index selection, polyline construction, temporal candidate filtering,
intersection-shape dispatch, point attribution, thresholds, file-index
ranges, timing, export gating — is embedded directly from the source.

Numeric conventions: timestamps and coordinates are modelled as rationals
(the idealisation of the float arithmetic in the source); `np.round(x, 3)`
is modelled by scaling by 1000 and rounding half-to-even; Python `abs` on
the time difference is `qabs`; `sys.exit()` with no argument terminates the
interpreter with exit status 0.
-/

namespace XoOtm

/-- Planar point in the projected coordinate system. -/
abbrev Pt : Type := ℚ × ℚ

/-- Polyline: the projected sample coordinates in acquisition order. -/
abbrev Line : Type := List Pt

/-- One measurement of a track: timestamp (seconds since epoch), file index
and projected position.  Mirrors one row of the per-track point
GeoDataFrame (columns `time`, `fidx`, `geometry`). -/
structure Sample where
  time : ℚ
  fidx : ℕ
  pos : Pt
  deriving DecidableEq, Inhabited

/-- One track: source-file identifier plus its samples in acquisition
order.  Mirrors the per-id group of the `pts` GeoDataFrame. -/
structure Track where
  id : String
  samples : List Sample
  deriving DecidableEq, Inhabited

/-- The configured match type (`cfg.matchtype` is one of the strings `xo`
and `otm`). -/
inductive MatchType where
  | xo
  | otm
  deriving DecidableEq

/-- The configuration fields consumed by the matching engine. -/
structure Config where
  matchtype : MatchType
  buffersize : ℚ
  delta_t : ℚ
  deriving DecidableEq

/-- Runtime classification of a shapely geometry value, as far as the
dispatch in `PreProcessor._identify` can observe it (it branches on
`type(MATCH)`).  Intersection results of two polylines, or of a polyline
with a buffer polygon, fall into these classes; an empty intersection is
an empty `lineString`, `multiPoint`, `multiLineString` or
`geometryCollection` (shapely returns typed empties or
GEOMETRYCOLLECTION EMPTY, never a `point` for an empty result). -/
inductive Geom where
  | point (p : Pt)
  | lineString (pts : List Pt)
  | multiPoint (pts : List Pt)
  | multiLineString (parts : List (List Pt))
  | polygon (shell : List Pt)
  | geometryCollection (parts : ℕ)
  deriving DecidableEq

/-- Emptiness of a geometry value as observed through shapely. -/
def Geom.isEmptyG : Geom → Bool
  | Geom.point _ => false
  | Geom.lineString ps => ps.isEmpty
  | Geom.multiPoint ps => ps.isEmpty
  | Geom.multiLineString ps => ps.isEmpty
  | Geom.polygon ps => ps.isEmpty
  | Geom.geometryCollection n => n == 0

/-- Python exceptions that the embedded code can raise. -/
inductive PyErr where
  | attributeError
  | indexError
  deriving DecidableEq

instance {ε α : Type} [DecidableEq ε] [DecidableEq α] : DecidableEq (Except ε α) := fun a b =>
  match a, b with
  | Except.ok x, Except.ok y =>
      if h : x = y then isTrue (by rw [h]) else isFalse (fun hc => h (by cases hc; rfl))
  | Except.error x, Except.error y =>
      if h : x = y then isTrue (by rw [h]) else isFalse (fun hc => h (by cases hc; rfl))
  | Except.ok _, Except.error _ => isFalse (fun hc => by cases hc)
  | Except.error _, Except.ok _ => isFalse (fun hc => by cases hc)

/-- One output record of the engine, in serialization column order:
`[l1p_tag1, l1p_tag2, tag1_rng_0, tag1_rng_1, tag2_rng_0, tag2_rng_1,
match_dt]` (the tuple `ATTRS` built in `_identify_XOs` and
`_identify_OTMs`). -/
structure Attrs where
  id1 : String
  id2 : String
  aFirst : ℕ
  aLast : ℕ
  bFirst : ℕ
  bLast : ℕ
  dtHours : ℚ
  deriving DecidableEq

/-- Python `abs` on a rational value. -/
def qabs (x : ℚ) : ℚ := if x < 0 then -x else x

/-- Floor of a rational value, as an integer. -/
def qfloor (x : ℚ) : ℤ := Int.fdiv x.num (x.den : ℤ)

/-- Rounding to the nearest integer, ties to even — the rounding mode of
`np.round`. -/
def rint (x : ℚ) : ℤ :=
  let f := qfloor x
  let frac := x - (f : ℚ)
  if frac < 1/2 then f
  else if 1/2 < frac then f + 1
  else if f % 2 = 0 then f else f + 1

/-- Rounding to 3 decimal places, the `np.round(x, 3)` of the source. -/
def round3 (x : ℚ) : ℚ := (rint (x * 1000) : ℚ) / 1000

/-- Positions (from start index `i`) at which the mask holds. -/
def npWhereAux : List Bool → ℕ → List ℕ
  | [], _ => []
  | b :: rest, i =>
    if b then i :: npWhereAux rest (i + 1) else npWhereAux rest (i + 1)

/-- Positions at which the mask holds: `np.where(mask)[0]` on a boolean
mask over a 1-d array. -/
def npWhere (mask : List Bool) : List ℕ := npWhereAux mask 0

/-- Fancy indexing `xs[idx]` of a 1-d array by an index array.  Every use
in the embedded code is in bounds, so out-of-range positions defaulting is
never exercised. -/
def selectIdx {α : Type} [Inhabited α] (xs : List α) (idx : List ℕ) : List α :=
  idx.map (fun i => xs.getD i default)

/-- AOI predicate for `cfg.aoi == arc` (preproc.py lines 91 to 94). -/
def arcMask (lat lon : ℚ) : Bool :=
  (decide (65 ≤ lat) && decide (lon ≤ -85) && decide (-180 ≤ lon)) ||
  (decide (65 ≤ lat) && decide (lon ≤ 275) && decide (180 ≤ lon)) ||
  (decide (70 ≤ lat) && decide (70 ≤ lon) && decide (lon ≤ 180))

/-- AOI predicate for `cfg.aoi == ant` (preproc.py line 96). -/
def antMask (lat : ℚ) : Bool := decide (lat ≤ -55)

/-- Outcome of the AOI-limiting step of `_compile_shp` (lines 89 to 98):
the selected index array, or the exception it raises, together with
whether a critical message was actually logged.  In the unrecognized-AOI
branch the logging call is `logger.critical(f/{self.aoi} undefined!/)`,
and evaluating the f-string raises `AttributeError` (the object has no
attribute `aoi`; the configuration lives in `self.cfg.aoi`) before
`logger.critical` is invoked, so nothing is logged. -/
structure AoiStep where
  result : Except PyErr (List ℕ)
  criticalLogged : Bool
  deriving DecidableEq

/-- The AOI-limiting step of `_compile_shp` (lines 89 to 98). -/
def selectAoi (aoi : String) (lat lon : List ℚ) : AoiStep :=
  if aoi = "arc" then
    { result := Except.ok (npWhere ((lat.zip lon).map (fun p => arcMask p.1 p.2))),
      criticalLogged := false }
  else if aoi = "ant" then
    { result := Except.ok (npWhere (lat.map antMask)),
      criticalLogged := false }
  else
    { result := Except.error PyErr.attributeError, criticalLogged := false }

/-- Index-selection chain of `_compile_shp` (lines 89 to 115) producing the
`fidx` column: `aoi_idx = np.where(aoi mask)`, then
`idx2pick = np.where(sft[aoi_idx] == 1)`, then, when dist-to-coast data is
available, `idx2pick = np.where(d2c[idx2pick] >= buffersize)`; the `fidx`
column is `idx2pick[0]`.  Note each `np.where` yields positions relative
to the array it was applied to, not to the full file arrays. -/
def compileFidx (aoi : String) (lat lon : List ℚ) (sft : List ℕ)
    (d2c : Option (List ℚ)) (buf : ℚ) : Except PyErr (List ℕ) :=
  match (selectAoi aoi lat lon).result with
  | Except.error e => Except.error e
  | Except.ok aoiIdx =>
    let sftSel := selectIdx sft aoiIdx
    let pick1 := npWhere (sftSel.map (fun v => v == 1))
    let pick2 :=
      match d2c with
      | some d => npWhere ((selectIdx d pick1).map (fun v => decide (buf ≤ v)))
      | none => pick1
    Except.ok pick2

/-- Follows the wording of the spec for the same filtering chain: the
`file_index` of a sample is its position within the originating source
file, so the eligible indices are the positions in the full-length arrays
at which the AOI mask, the ocean surface-type flag and (when available)
the dist-to-coast threshold all hold.  This definition exists only to be
compared against `compileFidx`, which embeds the source. -/
def specFileIndices (aoi : String) (lat lon : List ℚ) (sft : List ℕ)
    (d2c : Option (List ℚ)) (buf : ℚ) : List ℕ :=
  npWhere ((List.range lat.length).map (fun i =>
    (if aoi = "arc" then arcMask (lat.getD i 0) (lon.getD i 0)
     else antMask (lat.getD i 0))
    && (sft.getD i 0 == 1)
    && (match d2c with
        | some d => decide (buf ≤ d.getD i 0)
        | none => true)))

/-- Polyline construction of `_compile_shp` (lines 140 to 146): a
LineString through the sample positions when the track has at least 2
samples, and None otherwise. -/
def mkPolyline (samples : List Sample) : Option Line :=
  if 2 ≤ samples.length then some (samples.map Sample.pos) else none

/-- Mean timestamp of a track (the per-id `groupby.mean()` of
`_identify`, lines 169 to 172). -/
def meanTime (t : Track) : ℚ :=
  (t.samples.map Sample.time).sum / (t.samples.length : ℚ)

/-- Temporal candidate admission of `_identify` (lines 184 to 187): the
absolute mean-timestamp difference, in hours, is at most `delta_t`. -/
def timeAdmit (cfg : Config) (t1 t2 : Track) : Bool :=
  decide (qabs (meanTime t2 - meanTime t1) / 3600 ≤ cfg.delta_t)

/-- Point attribution, `_identify_points_in_match` (lines 246 to 258):
positions (in acquisition order) of the track samples whose point
intersects the buffered match geometry.  The buffered-intersection test
`pt.intersects(match.buffer(buffersize))` is the oracle `near`. -/
def pointsInMatch (near : Pt → Bool) (samples : List Sample) : List ℕ :=
  npWhere (samples.map (fun s => near s.pos))

/-- The attributed samples themselves, in the order of the attribution
list. -/
def attributedSamples (near : Pt → Bool) (samples : List Sample) : List Sample :=
  (pointsInMatch near samples).map (fun i => samples.getD i default)

/-- Timestamp of the sample at position (length / 2) of the
attributed-sample list. -/
def midTime (near : Pt → Bool) (samples : List Sample) : ℚ :=
  (let l := attributedSamples near samples
   l.getD (l.length / 2) default).time

/-- Crossover record synthesis, `_identify_XOs` (lines 260 to 310).  Both
sides need at least one attributed sample.  The diagnostic distance
computation (lines 276 to 284) takes `geometry2` from `line1_points`, so
`line2_points_in_match` indexes the geometry column of track 1; pandas
`.iloc` raises `IndexError` when any of those positions is out of range
for track 1.  The distance values themselves are dead (never returned),
so only this partiality is observable. -/
def identifyXOs (near1 near2 : Pt → Bool) (t1 t2 : Track) :
    Except PyErr (Option Attrs) :=
  let m1 := pointsInMatch near1 t1.samples
  let m2 := pointsInMatch near2 t2.samples
  if 0 < m1.length ∧ 0 < m2.length then
    if m2.all (fun i => decide (i < t1.samples.length)) then
      let fidx1 := m1.map (fun i => (t1.samples.getD i default).fidx)
      let fidx2 := m2.map (fun i => (t2.samples.getD i default).fidx)
      let t1mid := (t1.samples.getD (m1.getD (m1.length / 2) 0) default).time
      let t2mid := (t2.samples.getD (m2.getD (m2.length / 2) 0) default).time
      Except.ok (some
        { id1 := t1.id, id2 := t2.id,
          aFirst := fidx1.headD 0, aLast := fidx1.getLastD 0,
          bFirst := fidx2.headD 0, bLast := fidx2.getLastD 0,
          dtHours := round3 (qabs (t1mid - t2mid) / 3600) })
    else Except.error PyErr.indexError
  else Except.ok none

/-- Orbit-trajectory-match record synthesis, `_identify_OTMs` (lines 312
to 352).  Both sides need strictly more than 50 attributed samples; there
is no diagnostic distance computation here, so the function is total. -/
def identifyOTMs (near1 near2 : Pt → Bool) (t1 t2 : Track) : Option Attrs :=
  let m1 := pointsInMatch near1 t1.samples
  let m2 := pointsInMatch near2 t2.samples
  if 50 < m1.length ∧ 50 < m2.length then
    let fidx1 := m1.map (fun i => (t1.samples.getD i default).fidx)
    let fidx2 := m2.map (fun i => (t2.samples.getD i default).fidx)
    let t1mid := (t1.samples.getD (m1.getD (m1.length / 2) 0) default).time
    let t2mid := (t2.samples.getD (m2.getD (m2.length / 2) 0) default).time
    some
      { id1 := t1.id, id2 := t2.id,
        aFirst := fidx1.headD 0, aLast := fidx1.getLastD 0,
        bFirst := fidx2.headD 0, bLast := fidx2.getLastD 0,
        dtHours := round3 (qabs (t1mid - t2mid) / 3600) }
  else none

/-- Whether a geometry value has the runtime type the configured match
type dispatches on. -/
def shapeMatches (g : Geom) (mt : MatchType) : Bool :=
  match g, mt with
  | Geom.point _, MatchType.xo => true
  | Geom.lineString _, MatchType.otm => true
  | _, _ => false

/-- The per-pair dispatch of `_identify` (lines 196 to 216): a Point
result under `xo` goes to `_identify_XOs`, a LineString result under
`otm` goes to `_identify_OTMs`, and every other combination logs an
unsupported-intersect-type warning and yields no attributes.  The second
component records whether that warning was logged.  `near g` is the
point-in-buffered-match oracle for the match geometry `g`. -/
def processPair (cfg : Config) (near : Geom → Pt → Bool) (g : Geom)
    (t1 t2 : Track) : Except PyErr (Option Attrs) × Bool :=
  match g, cfg.matchtype with
  | Geom.point _, MatchType.xo =>
      (identifyXOs (near g) (near g) t1 t2, false)
  | Geom.lineString _, MatchType.otm =>
      (Except.ok (identifyOTMs (near g) (near g) t1 t2), false)
  | _, _ => (Except.ok none, true)

/-- The intersection computation of `_identify_intersection` (lines 240
to 244): direct line intersection under `xo`, intersection with the
buffered corridor around the second line under `otm`.  `inter` and
`interBuf` are the shapely oracles. -/
def identifyIntersection (inter : Line → Line → Geom)
    (interBuf : Line → ℚ → Line → Geom) (cfg : Config) (l1 l2 : Line) : Geom :=
  match cfg.matchtype with
  | MatchType.xo => inter l1 l2
  | MatchType.otm => interBuf l1 cfg.buffersize l2

/-- One admitted pair of the `_identify` double loop: skip when either
polyline is None (line 192), otherwise classify the intersection and
dispatch; an emitted record is paired with its match geometry (the
`attributes.append` / `geometries.append` of lines 217 to 219). -/
def pairStep (cfg : Config) (inter : Line → Line → Geom)
    (interBuf : Line → ℚ → Line → Geom) (near : Geom → Pt → Bool)
    (t1 t2 : Track) : Except PyErr (Option (Attrs × Geom)) :=
  match mkPolyline t1.samples, mkPolyline t2.samples with
  | some l1, some l2 =>
    let g := identifyIntersection inter interBuf cfg l1 l2
    match (processPair cfg near g t1 t2).1 with
    | Except.error e => Except.error e
    | Except.ok none => Except.ok none
    | Except.ok (some a) => Except.ok (some (a, g))
  | _, _ => Except.ok none

/-- Inner loop of `_identify`: the time-admitted subset of the second
track set, processed in order, appending emitted records. -/
def innerLoop (cfg : Config) (inter : Line → Line → Geom)
    (interBuf : Line → ℚ → Line → Geom) (near : Geom → Pt → Bool)
    (t1 : Track) : List Track → List (Attrs × Geom) →
    Except PyErr (List (Attrs × Geom))
  | [], acc => Except.ok acc
  | t2 :: rest, acc =>
    match pairStep cfg inter interBuf near t1 t2 with
    | Except.error e => Except.error e
    | Except.ok none => innerLoop cfg inter interBuf near t1 rest acc
    | Except.ok (some r) => innerLoop cfg inter interBuf near t1 rest (acc ++ [r])

/-- Outer loop of `_identify` over the first track set. -/
def outerLoop (cfg : Config) (inter : Line → Line → Geom)
    (interBuf : Line → ℚ → Line → Geom) (near : Geom → Pt → Bool)
    (set2 : List Track) : List Track → List (Attrs × Geom) →
    Except PyErr (List (Attrs × Geom))
  | [], acc => Except.ok acc
  | t1 :: rest, acc =>
    match innerLoop cfg inter interBuf near t1 (set2.filter (timeAdmit cfg t1)) acc with
    | Except.error e => Except.error e
    | Except.ok acc2 => outerLoop cfg inter interBuf near set2 rest acc2

/-- The full matching pass of `_identify` (lines 152 to 237). -/
def identifyAll (cfg : Config) (inter : Line → Line → Geom)
    (interBuf : Line → ℚ → Line → Geom) (near : Geom → Pt → Bool)
    (set1 set2 : List Track) : Except PyErr (List (Attrs × Geom)) :=
  outerLoop cfg inter interBuf near set2 set1 []

/-- Outcome of `_export_shp` (lines 354 to 367). -/
inductive ExportOutcome where
  | wroteFile (n : ℕ)
  | exited (status : ℕ)
  deriving DecidableEq

/-- Export gating of `_export_shp`: a non-empty result collection is
written to file; an empty one logs a critical message and calls
`sys.exit()` with no argument, which raises `SystemExit(None)` and
terminates the interpreter with exit status 0. -/
def exportShp (recs : List (Attrs × Geom)) : ExportOutcome :=
  if 0 < recs.length then ExportOutcome.wroteFile recs.length
  else ExportOutcome.exited 0

/-! Helper lemmas. -/

theorem qabs_eq_abs (x : ℚ) : qabs x = |x| := by
  unfold qabs
  split
  · exact (abs_of_neg (by assumption)).symm
  · exact (abs_of_nonneg (not_lt.mp (by assumption))).symm

theorem qfloor_nonneg {x : ℚ} (h : 0 ≤ x) : 0 ≤ qfloor x :=
  Int.fdiv_nonneg (Rat.num_nonneg.mpr h) (Int.natCast_nonneg _)

theorem rint_nonneg {x : ℚ} (h : 0 ≤ x) : 0 ≤ rint x := by
  have hf : 0 ≤ qfloor x := qfloor_nonneg h
  unfold rint
  dsimp only
  split
  · exact hf
  · split
    · omega
    · split
      · exact hf
      · omega

theorem round3_nonneg {x : ℚ} (h : 0 ≤ x) : 0 ≤ round3 x := by
  unfold round3
  have : (0 : ℚ) ≤ (rint (x * 1000) : ℚ) := by
    exact_mod_cast rint_nonneg (mul_nonneg h (by norm_num))
  positivity

theorem npWhereAux_mem :
    ∀ (mask : List Bool) (k i : ℕ), i ∈ npWhereAux mask k → k ≤ i ∧ i < k + mask.length
  | [], k, i, h => by simp [npWhereAux] at h
  | b :: rest, k, i, h => by
    simp only [npWhereAux] at h
    by_cases hb : b
    · rw [if_pos hb] at h
      rcases List.mem_cons.mp h with rfl | h2
      · simp
      · have := npWhereAux_mem rest (k + 1) i h2
        simp only [List.length_cons]
        omega
    · rw [if_neg hb] at h
      have := npWhereAux_mem rest (k + 1) i h
      simp only [List.length_cons]
      omega

theorem npWhereAux_pairwise :
    ∀ (mask : List Bool) (k : ℕ), List.Pairwise (· < ·) (npWhereAux mask k)
  | [], k => by simp [npWhereAux]
  | b :: rest, k => by
    simp only [npWhereAux]
    by_cases hb : b
    · rw [if_pos hb]
      refine List.Pairwise.cons ?_ (npWhereAux_pairwise rest (k + 1))
      intro j hj
      have := npWhereAux_mem rest (k + 1) j hj
      omega
    · rw [if_neg hb]
      exact npWhereAux_pairwise rest (k + 1)

theorem npWhereAux_all_false :
    ∀ (mask : List Bool) (k : ℕ), (∀ b ∈ mask, b = false) → npWhereAux mask k = []
  | [], _, _ => rfl
  | b :: rest, k, h => by
    simp only [npWhereAux]
    rw [if_neg (by simp [h b (List.mem_cons_self b rest)])]
    exact npWhereAux_all_false rest (k + 1) (fun x hx => h x (List.mem_cons_of_mem b hx))

theorem pointsInMatch_lt (near : Pt → Bool) (samples : List Sample) :
    ∀ i ∈ pointsInMatch near samples, i < samples.length := by
  intro i hi
  simp only [pointsInMatch, npWhere] at hi
  have := npWhereAux_mem _ 0 i hi
  simpa using this.2

theorem pointsInMatch_pairwise (near : Pt → Bool) (samples : List Sample) :
    List.Pairwise (· < ·) (pointsInMatch near samples) :=
  npWhereAux_pairwise _ 0

theorem pointsInMatch_false (near : Pt → Bool) (samples : List Sample)
    (h : ∀ p, near p = false) : pointsInMatch near samples = [] := by
  apply npWhereAux_all_false
  intro b hb
  rcases List.mem_map.mp hb with ⟨s, _, rfl⟩
  exact h s.pos

theorem getD_map {α : Type} (f : ℕ → α) :
    ∀ (l : List ℕ) (n : ℕ), n < l.length → ∀ d : α, (l.map f).getD n d = f (l.getD n 0)
  | [], n, h => by simp at h
  | x :: xs, 0, _ => by intro d; simp
  | x :: xs, n + 1, h => by
    intro d
    simp only [List.map_cons, List.getD_cons_succ]
    exact getD_map f xs n (by simpa using h) d

/-! Emission and below-threshold lemmas for the two record synthesizers. -/

theorem identifyXOs_emit (n1 n2 : Pt → Bool) (t1 t2 : Track) (a : Attrs)
    (h : identifyXOs n1 n2 t1 t2 = Except.ok (some a)) :
    0 < (pointsInMatch n1 t1.samples).length ∧
    0 < (pointsInMatch n2 t2.samples).length ∧
    a = { id1 := t1.id, id2 := t2.id,
          aFirst := ((pointsInMatch n1 t1.samples).map
            (fun i => (t1.samples.getD i default).fidx)).headD 0,
          aLast := ((pointsInMatch n1 t1.samples).map
            (fun i => (t1.samples.getD i default).fidx)).getLastD 0,
          bFirst := ((pointsInMatch n2 t2.samples).map
            (fun i => (t2.samples.getD i default).fidx)).headD 0,
          bLast := ((pointsInMatch n2 t2.samples).map
            (fun i => (t2.samples.getD i default).fidx)).getLastD 0,
          dtHours := round3 (qabs
            ((t1.samples.getD ((pointsInMatch n1 t1.samples).getD
                ((pointsInMatch n1 t1.samples).length / 2) 0) default).time -
             (t2.samples.getD ((pointsInMatch n2 t2.samples).getD
                ((pointsInMatch n2 t2.samples).length / 2) 0) default).time) / 3600) } := by
  simp only [identifyXOs] at h
  split at h
  · split at h
    · simp only [Except.ok.injEq, Option.some.injEq] at h
      exact ⟨by omega, by omega, h.symm⟩
    · cases h
  · cases h

theorem identifyOTMs_emit (n1 n2 : Pt → Bool) (t1 t2 : Track) (a : Attrs)
    (h : identifyOTMs n1 n2 t1 t2 = some a) :
    50 < (pointsInMatch n1 t1.samples).length ∧
    50 < (pointsInMatch n2 t2.samples).length ∧
    a = { id1 := t1.id, id2 := t2.id,
          aFirst := ((pointsInMatch n1 t1.samples).map
            (fun i => (t1.samples.getD i default).fidx)).headD 0,
          aLast := ((pointsInMatch n1 t1.samples).map
            (fun i => (t1.samples.getD i default).fidx)).getLastD 0,
          bFirst := ((pointsInMatch n2 t2.samples).map
            (fun i => (t2.samples.getD i default).fidx)).headD 0,
          bLast := ((pointsInMatch n2 t2.samples).map
            (fun i => (t2.samples.getD i default).fidx)).getLastD 0,
          dtHours := round3 (qabs
            ((t1.samples.getD ((pointsInMatch n1 t1.samples).getD
                ((pointsInMatch n1 t1.samples).length / 2) 0) default).time -
             (t2.samples.getD ((pointsInMatch n2 t2.samples).getD
                ((pointsInMatch n2 t2.samples).length / 2) 0) default).time) / 3600) } := by
  simp only [identifyOTMs] at h
  split at h
  · simp only [Option.some.injEq] at h
    exact ⟨by omega, by omega, h.symm⟩
  · cases h

theorem identifyXOs_below (n1 n2 : Pt → Bool) (t1 t2 : Track)
    (h : (pointsInMatch n1 t1.samples).length < 1 ∨
         (pointsInMatch n2 t2.samples).length < 1) :
    identifyXOs n1 n2 t1 t2 = Except.ok none := by
  simp only [identifyXOs]
  rw [if_neg (by omega)]

theorem identifyOTMs_below (n1 n2 : Pt → Bool) (t1 t2 : Track)
    (h : (pointsInMatch n1 t1.samples).length < 51 ∨
         (pointsInMatch n2 t2.samples).length < 51) :
    identifyOTMs n1 n2 t1 t2 = none := by
  simp only [identifyOTMs]
  rw [if_neg (by omega)]

theorem midTime_eq (near : Pt → Bool) (samples : List Sample)
    (h : 0 < (pointsInMatch near samples).length) :
    midTime near samples =
      (samples.getD ((pointsInMatch near samples).getD
        ((pointsInMatch near samples).length / 2) 0) default).time := by
  have hlt : (pointsInMatch near samples).length / 2 < (pointsInMatch near samples).length :=
    Nat.div_lt_self h (by norm_num)
  simp only [midTime, attributedSamples, List.length_map]
  rw [getD_map _ _ _ hlt]

/-! Dispatch and driver-loop lemmas. -/

theorem processPair_emit (cfg : Config) (near : Geom → Pt → Bool) (g : Geom)
    (t1 t2 : Track) (a : Attrs)
    (h : (processPair cfg near g t1 t2).1 = Except.ok (some a)) :
    (cfg.matchtype = MatchType.xo ∧ ∃ p, g = Geom.point p) ∨
    (cfg.matchtype = MatchType.otm ∧ ∃ ps, g = Geom.lineString ps) := by
  obtain ⟨mt, bs, dt⟩ := cfg
  cases g <;> cases mt <;> simp only [processPair] at h
  case point.xo =>
    exact Or.inl ⟨rfl, _, rfl⟩
  case lineString.otm =>
    exact Or.inr ⟨rfl, _, rfl⟩
  all_goals cases h

theorem processPair_mismatch (cfg : Config) (near : Geom → Pt → Bool) (g : Geom)
    (t1 t2 : Track) (h : shapeMatches g cfg.matchtype = false) :
    (processPair cfg near g t1 t2).1 = Except.ok none := by
  obtain ⟨mt, bs, dt⟩ := cfg
  cases g <;> cases mt <;> simp only [shapeMatches] at h <;>
    simp only [processPair] <;> first | rfl | cases h

theorem pairStep_emit (cfg : Config) (inter : Line → Line → Geom)
    (interBuf : Line → ℚ → Line → Geom) (near : Geom → Pt → Bool)
    (t1 t2 : Track) (r : Attrs × Geom)
    (h : pairStep cfg inter interBuf near t1 t2 = Except.ok (some r)) :
    (cfg.matchtype = MatchType.xo ∧ ∃ p, r.2 = Geom.point p) ∨
    (cfg.matchtype = MatchType.otm ∧ ∃ ps, r.2 = Geom.lineString ps) := by
  unfold pairStep at h
  cases hp1 : mkPolyline t1.samples with
  | none =>
    rw [hp1] at h
    cases hp2 : mkPolyline t2.samples <;> rw [hp2] at h <;> cases h
  | some l1 =>
    rw [hp1] at h
    cases hp2 : mkPolyline t2.samples with
    | none => rw [hp2] at h; cases h
    | some l2 =>
      rw [hp2] at h
      simp only at h
      cases hq : (processPair cfg near
          (identifyIntersection inter interBuf cfg l1 l2) t1 t2).1 with
      | error e => rw [hq] at h; cases h
      | ok o =>
        cases o with
        | none => rw [hq] at h; cases h
        | some a =>
          rw [hq] at h
          simp only [Except.ok.injEq, Option.some.injEq] at h
          have := processPair_emit cfg near
            (identifyIntersection inter interBuf cfg l1 l2) t1 t2 a hq
          rw [← h]
          exact this

theorem mkPolyline_none {samples : List Sample} (h : samples.length < 2) :
    mkPolyline samples = none := by
  unfold mkPolyline
  rw [if_neg (by omega)]

theorem pairStep_short_left (cfg : Config) (inter : Line → Line → Geom)
    (interBuf : Line → ℚ → Line → Geom) (near : Geom → Pt → Bool)
    (t1 t2 : Track) (h : t1.samples.length < 2) :
    pairStep cfg inter interBuf near t1 t2 = Except.ok none := by
  unfold pairStep
  rw [mkPolyline_none h]

theorem pairStep_short_right (cfg : Config) (inter : Line → Line → Geom)
    (interBuf : Line → ℚ → Line → Geom) (near : Geom → Pt → Bool)
    (t1 t2 : Track) (h : t2.samples.length < 2) :
    pairStep cfg inter interBuf near t1 t2 = Except.ok none := by
  unfold pairStep
  rw [mkPolyline_none h]
  cases mkPolyline t1.samples <;> rfl

theorem innerLoop_mem (cfg : Config) (inter : Line → Line → Geom)
    (interBuf : Line → ℚ → Line → Geom) (near : Geom → Pt → Bool)
    (t1 : Track) (P : Attrs × Geom → Prop)
    (hstep : ∀ t2 r, pairStep cfg inter interBuf near t1 t2 = Except.ok (some r) → P r) :
    ∀ (cands : List Track) (acc recs : List (Attrs × Geom)),
      innerLoop cfg inter interBuf near t1 cands acc = Except.ok recs →
      (∀ r ∈ acc, P r) → ∀ r ∈ recs, P r := by
  intro cands
  induction cands with
  | nil =>
    intro acc recs h hacc
    simp only [innerLoop] at h
    cases h
    exact hacc
  | cons t2 rest ih =>
    intro acc recs h hacc
    simp only [innerLoop] at h
    cases hq : pairStep cfg inter interBuf near t1 t2 with
    | error e => rw [hq] at h; cases h
    | ok o =>
      cases o with
      | none =>
        rw [hq] at h
        exact ih acc recs h hacc
      | some r0 =>
        rw [hq] at h
        refine ih (acc ++ [r0]) recs h ?_
        intro r hr
        rcases List.mem_append.mp hr with h1 | h2
        · exact hacc r h1
        · rw [List.mem_singleton.mp h2]
          exact hstep t2 r0 hq

theorem outerLoop_mem (cfg : Config) (inter : Line → Line → Geom)
    (interBuf : Line → ℚ → Line → Geom) (near : Geom → Pt → Bool)
    (set2 : List Track) (P : Attrs × Geom → Prop)
    (hstep : ∀ t1 t2 r, pairStep cfg inter interBuf near t1 t2 = Except.ok (some r) → P r) :
    ∀ (l : List Track) (acc recs : List (Attrs × Geom)),
      outerLoop cfg inter interBuf near set2 l acc = Except.ok recs →
      (∀ r ∈ acc, P r) → ∀ r ∈ recs, P r := by
  intro l
  induction l with
  | nil =>
    intro acc recs h hacc
    simp only [outerLoop] at h
    cases h
    exact hacc
  | cons t1 rest ih =>
    intro acc recs h hacc
    simp only [outerLoop] at h
    cases hq : innerLoop cfg inter interBuf near t1 (set2.filter (timeAdmit cfg t1)) acc with
    | error e => rw [hq] at h; cases h
    | ok acc2 =>
      rw [hq] at h
      refine ih acc2 recs h ?_
      exact innerLoop_mem cfg inter interBuf near t1 P (hstep t1) _ acc acc2 hq hacc

theorem innerLoop_skip (cfg : Config) (inter : Line → Line → Geom)
    (interBuf : Line → ℚ → Line → Geom) (near : Geom → Pt → Bool)
    (t1 : Track) (h : t1.samples.length < 2) :
    ∀ (cands : List Track) (acc : List (Attrs × Geom)),
      innerLoop cfg inter interBuf near t1 cands acc = Except.ok acc := by
  intro cands
  induction cands with
  | nil => intro acc; rfl
  | cons t2 rest ih =>
    intro acc
    simp only [innerLoop]
    rw [pairStep_short_left cfg inter interBuf near t1 t2 h]
    exact ih acc

theorem innerLoop_filter_short (cfg : Config) (inter : Line → Line → Geom)
    (interBuf : Line → ℚ → Line → Geom) (near : Geom → Pt → Bool) (t1 : Track) :
    ∀ (cands : List Track) (acc : List (Attrs × Geom)),
      innerLoop cfg inter interBuf near t1 cands acc =
      innerLoop cfg inter interBuf near t1
        (cands.filter (fun t => decide (2 ≤ t.samples.length))) acc := by
  intro cands
  induction cands with
  | nil => intro acc; rfl
  | cons t2 rest ih =>
    intro acc
    by_cases h2 : 2 ≤ t2.samples.length
    · rw [List.filter_cons_of_pos (by simpa using h2)]
      simp only [innerLoop]
      cases hq : pairStep cfg inter interBuf near t1 t2 with
      | error e => rfl
      | ok o => cases o <;> exact ih _
    · rw [List.filter_cons_of_neg (by simpa using h2)]
      simp only [innerLoop]
      rw [pairStep_short_right cfg inter interBuf near t1 t2 (by omega)]
      exact ih acc

theorem filter_swap {α : Type} (p q : α → Bool) :
    ∀ l : List α, (l.filter p).filter q = (l.filter q).filter p := by
  intro l
  induction l with
  | nil => rfl
  | cons x xs ih =>
    by_cases hp : p x <;> by_cases hq : q x <;>
      simp [List.filter_cons, hp, hq, ih]

theorem outerLoop_filter_short (cfg : Config) (inter : Line → Line → Geom)
    (interBuf : Line → ℚ → Line → Geom) (near : Geom → Pt → Bool)
    (set2 : List Track) :
    ∀ (l : List Track) (acc : List (Attrs × Geom)),
      outerLoop cfg inter interBuf near set2 l acc =
      outerLoop cfg inter interBuf near
        (set2.filter (fun t => decide (2 ≤ t.samples.length)))
        (l.filter (fun t => decide (2 ≤ t.samples.length))) acc := by
  intro l
  induction l with
  | nil => intro acc; rfl
  | cons t1 rest ih =>
    intro acc
    by_cases h2 : 2 ≤ t1.samples.length
    · rw [List.filter_cons_of_pos (by simpa using h2)]
      simp only [outerLoop]
      have hinner :
          innerLoop cfg inter interBuf near t1 (set2.filter (timeAdmit cfg t1)) acc =
          innerLoop cfg inter interBuf near t1
            ((set2.filter (fun t => decide (2 ≤ t.samples.length))).filter
              (timeAdmit cfg t1)) acc := by
        rw [innerLoop_filter_short cfg inter interBuf near t1
          (set2.filter (timeAdmit cfg t1)) acc]
        rw [filter_swap]
      rw [← hinner]
      cases innerLoop cfg inter interBuf near t1 (set2.filter (timeAdmit cfg t1)) acc with
      | error e => rfl
      | ok acc2 => exact ih acc2
    · rw [List.filter_cons_of_neg (by simpa using h2)]
      simp only [outerLoop]
      rw [innerLoop_skip cfg inter interBuf near t1 (by omega)]
      exact ih acc

theorem qabs_nonneg (x : ℚ) : 0 ≤ qabs x := by
  rw [qabs_eq_abs]
  exact abs_nonneg x

theorem attributedSamples_map_fidx (near : Pt → Bool) (samples : List Sample) :
    (attributedSamples near samples).map Sample.fidx =
    (pointsInMatch near samples).map (fun i => (samples.getD i default).fidx) := by
  unfold attributedSamples
  rw [List.map_map]
  rfl

/-! Concrete inputs used by the witnesses and counterexamples. -/

/-- Oracle that attributes every sample to the match region. -/
def nearPtTrue : Pt → Bool := fun _ => true

/-- Match-geometry-indexed oracle that attributes every sample. -/
def nearTrue : Geom → Pt → Bool := fun _ _ => true

/-- Match-geometry-indexed oracle that attributes no sample, the behavior
of `pt.intersects(g.buffer(b))` when `g` is empty. -/
def nearFalse : Geom → Pt → Bool := fun _ _ => false

/-- Crossover-mode configuration. -/
def cfgXo : Config := { matchtype := MatchType.xo, buffersize := 1, delta_t := 12 }

/-- Orbit-trajectory-match-mode configuration. -/
def cfgOtm : Config := { matchtype := MatchType.otm, buffersize := 1, delta_t := 12 }

/-- A 2-sample track of carrier 1. -/
def tA : Track :=
  { id := "a.nc",
    samples := [{ time := 0, fidx := 10, pos := (0, 0) },
                { time := 7200, fidx := 11, pos := (1, 1) }] }

/-- A 2-sample track of carrier 2 with mean timestamp equal to that of
`tA`. -/
def tB : Track :=
  { id := "b.nc",
    samples := [{ time := 3600, fidx := 20, pos := (0, 1) },
                { time := 3600, fidx := 21, pos := (1, 0) }] }

/-- A 51-sample track (the minimum admitted by the otm threshold). -/
def tLongA : Track :=
  { id := "la.nc",
    samples := (List.range 51).map
      (fun (i : ℕ) => { time := (i : ℚ), fidx := i, pos := ((i : ℚ), 0) }) }

/-- A second 51-sample track with the same timestamps. -/
def tLongB : Track :=
  { id := "lb.nc",
    samples := (List.range 51).map
      (fun (i : ℕ) => { time := (i : ℚ), fidx := i, pos := ((i : ℚ), 1) }) }

/-- A 1-sample track (crossover threshold is met with a single attributed
sample). -/
def tShort : Track :=
  { id := "s1.nc", samples := [{ time := 0, fidx := 0, pos := (0, 0) }] }

/-- A 2-sample track whose second attributed position is out of range for
`tShort`. -/
def tTwo : Track :=
  { id := "s2.nc",
    samples := [{ time := 0, fidx := 1, pos := (0, 0) },
                { time := 0, fidx := 2, pos := (0, 0) }] }

/-- Intersection oracle returning a crossover point. -/
def interPoint : Line → Line → Geom := fun _ _ => Geom.point (0, 0)

/-- Buffered-intersection oracle returning a crossover point. -/
def interBufPoint : Line → ℚ → Line → Geom := fun _ _ _ => Geom.point (0, 0)

/-- The record emitted for the pair `tA`, `tB` under `cfgXo` with the
all-true attribution oracle. -/
def attrsX : Attrs :=
  { id1 := "a.nc", id2 := "b.nc", aFirst := 10, aLast := 11,
    bFirst := 20, bLast := 21, dtHours := 1 }

/-- The record emitted for the pair `tLongA`, `tLongB` under otm with the
all-true attribution oracle. -/
def attrsOtm : Attrs :=
  { id1 := "la.nc", id2 := "lb.nc", aFirst := 0, aLast := 50,
    bFirst := 0, bLast := 50, dtHours := 0 }

/-- The record and geometry appended for the pair `tA`, `tB`. -/
def recX : Attrs × Geom := (attrsX, Geom.point (0, 0))

/-- An empty intersection result (LINESTRING EMPTY). -/
def gEmptyLine : Geom := Geom.lineString []

/-! Claim theorems. -/

/-- C2: a Match record is produced for a track pair only if, under
match_type xo, both tracks have at least 1 attributed sample and, under
match_type otm, both tracks have at least 51 attributed samples; when
either side falls below its threshold the pair yields no record and the
synthesizer returns normally (no exception). -/
theorem c2_match_thresholds :
    (∀ n1 n2 t1 t2 a, identifyXOs n1 n2 t1 t2 = Except.ok (some a) →
        1 ≤ (pointsInMatch n1 t1.samples).length ∧
        1 ≤ (pointsInMatch n2 t2.samples).length) ∧
    (∀ n1 n2 t1 t2 a, identifyOTMs n1 n2 t1 t2 = some a →
        51 ≤ (pointsInMatch n1 t1.samples).length ∧
        51 ≤ (pointsInMatch n2 t2.samples).length) ∧
    (∀ n1 n2 t1 t2, ((pointsInMatch n1 t1.samples).length < 1 ∨
        (pointsInMatch n2 t2.samples).length < 1) →
        identifyXOs n1 n2 t1 t2 = Except.ok none) ∧
    (∀ n1 n2 t1 t2, ((pointsInMatch n1 t1.samples).length < 51 ∨
        (pointsInMatch n2 t2.samples).length < 51) →
        identifyOTMs n1 n2 t1 t2 = none) := by
  refine ⟨?_, ?_, identifyXOs_below, identifyOTMs_below⟩
  · intro n1 n2 t1 t2 a h
    obtain ⟨h1, h2, -⟩ := identifyXOs_emit n1 n2 t1 t2 a h
    exact ⟨h1, h2⟩
  · intro n1 n2 t1 t2 a h
    obtain ⟨h1, h2, -⟩ := identifyOTMs_emit n1 n2 t1 t2 a h
    exact ⟨by omega, by omega⟩

set_option maxRecDepth 100000 in
theorem c2_witness :
    (1 ≤ (pointsInMatch nearPtTrue tA.samples).length ∧
     1 ≤ (pointsInMatch nearPtTrue tB.samples).length) ∧
    (51 ≤ (pointsInMatch nearPtTrue tLongA.samples).length ∧
     51 ≤ (pointsInMatch nearPtTrue tLongB.samples).length) :=
  ⟨c2_match_thresholds.1 nearPtTrue nearPtTrue tA tB attrsX (by with_unfolding_all rfl),
   c2_match_thresholds.2.1 nearPtTrue nearPtTrue tLongA tLongB attrsOtm
     (by with_unfolding_all rfl)⟩

/-- C3: the time delta of every emitted Match equals the absolute
difference, in hours and rounded to 3 decimal places, between the
timestamps of the samples at position (length / 2) of the two sides
attributed-sample lists, and is non-negative. -/
theorem c3_time_delta :
    (∀ n1 n2 t1 t2 a, identifyXOs n1 n2 t1 t2 = Except.ok (some a) →
        a.dtHours = round3 (|midTime n1 t1.samples - midTime n2 t2.samples| / 3600) ∧
        0 ≤ a.dtHours) ∧
    (∀ n1 n2 t1 t2 a, identifyOTMs n1 n2 t1 t2 = some a →
        a.dtHours = round3 (|midTime n1 t1.samples - midTime n2 t2.samples| / 3600) ∧
        0 ≤ a.dtHours) := by
  constructor
  · intro n1 n2 t1 t2 a h
    obtain ⟨h1, h2, ha⟩ := identifyXOs_emit n1 n2 t1 t2 a h
    subst ha
    constructor
    · simp only [midTime_eq n1 t1.samples h1, midTime_eq n2 t2.samples h2, ← qabs_eq_abs]
    · exact round3_nonneg (div_nonneg (qabs_nonneg _) (by norm_num))
  · intro n1 n2 t1 t2 a h
    obtain ⟨h1, h2, ha⟩ := identifyOTMs_emit n1 n2 t1 t2 a h
    subst ha
    constructor
    · simp only [midTime_eq n1 t1.samples (by omega), midTime_eq n2 t2.samples (by omega),
        ← qabs_eq_abs]
    · exact round3_nonneg (div_nonneg (qabs_nonneg _) (by norm_num))

set_option maxRecDepth 100000 in
theorem c3_witness :
    attrsX.dtHours =
      round3 (|midTime nearPtTrue tA.samples - midTime nearPtTrue tB.samples| / 3600) ∧
    0 ≤ attrsX.dtHours :=
  c3_time_delta.1 nearPtTrue nearPtTrue tA tB attrsX (by with_unfolding_all rfl)

/-- C4: the first/last index fields of every emitted Match are the fidx
values of the first and last entries of each side attributed-sample list,
and that list is ordered by the track native sample order (its positions
are strictly increasing and within the track). -/
theorem c4_index_ranges :
    (∀ n1 n2 t1 t2 a, identifyXOs n1 n2 t1 t2 = Except.ok (some a) →
        a.aFirst = ((attributedSamples n1 t1.samples).map Sample.fidx).headD 0 ∧
        a.aLast = ((attributedSamples n1 t1.samples).map Sample.fidx).getLastD 0 ∧
        a.bFirst = ((attributedSamples n2 t2.samples).map Sample.fidx).headD 0 ∧
        a.bLast = ((attributedSamples n2 t2.samples).map Sample.fidx).getLastD 0) ∧
    (∀ n1 n2 t1 t2 a, identifyOTMs n1 n2 t1 t2 = some a →
        a.aFirst = ((attributedSamples n1 t1.samples).map Sample.fidx).headD 0 ∧
        a.aLast = ((attributedSamples n1 t1.samples).map Sample.fidx).getLastD 0 ∧
        a.bFirst = ((attributedSamples n2 t2.samples).map Sample.fidx).headD 0 ∧
        a.bLast = ((attributedSamples n2 t2.samples).map Sample.fidx).getLastD 0) ∧
    (∀ near samples, List.Pairwise (· < ·) (pointsInMatch near samples)) ∧
    (∀ near samples, ∀ i ∈ pointsInMatch near samples, i < samples.length) := by
  refine ⟨?_, ?_, pointsInMatch_pairwise, pointsInMatch_lt⟩
  · intro n1 n2 t1 t2 a h
    obtain ⟨-, -, ha⟩ := identifyXOs_emit n1 n2 t1 t2 a h
    subst ha
    simp only [attributedSamples_map_fidx]
    exact ⟨trivial, trivial, trivial, trivial⟩
  · intro n1 n2 t1 t2 a h
    obtain ⟨-, -, ha⟩ := identifyOTMs_emit n1 n2 t1 t2 a h
    subst ha
    simp only [attributedSamples_map_fidx]
    exact ⟨trivial, trivial, trivial, trivial⟩

set_option maxRecDepth 100000 in
theorem c4_witness :
    attrsX.aFirst = ((attributedSamples nearPtTrue tA.samples).map Sample.fidx).headD 0 ∧
    attrsX.aLast = ((attributedSamples nearPtTrue tA.samples).map Sample.fidx).getLastD 0 ∧
    attrsX.bFirst = ((attributedSamples nearPtTrue tB.samples).map Sample.fidx).headD 0 ∧
    attrsX.bLast = ((attributedSamples nearPtTrue tB.samples).map Sample.fidx).getLastD 0 :=
  c4_index_ranges.1 nearPtTrue nearPtTrue tA tB attrsX (by with_unfolding_all rfl)

/-- C10: when both sides meet the crossover threshold but some attributed
position of track B is out of range for track A, `_identify_XOs` raises
IndexError (the diagnostic distance step indexes the geometry of track A
by the attributed positions of track B) instead of returning a record or
None. -/
theorem c10_xo_index_error (n1 n2 : Pt → Bool) (t1 t2 : Track)
    (h1 : 1 ≤ (pointsInMatch n1 t1.samples).length)
    (h2 : 1 ≤ (pointsInMatch n2 t2.samples).length)
    (hoob : ∃ i ∈ pointsInMatch n2 t2.samples, t1.samples.length ≤ i) :
    identifyXOs n1 n2 t1 t2 = Except.error PyErr.indexError := by
  simp only [identifyXOs]
  rw [if_pos ⟨h1, h2⟩]
  rw [if_neg]
  simp only [List.all_eq_true, decide_eq_true_eq]
  intro hall
  obtain ⟨i, hi, hle⟩ := hoob
  exact absurd (hall i hi) (by omega)

theorem c10_witness :
    identifyXOs nearPtTrue nearPtTrue tShort tTwo = Except.error PyErr.indexError :=
  c10_xo_index_error nearPtTrue nearPtTrue tShort tTwo (by decide) (by decide)
    ⟨1, by decide, by decide⟩

/-- C1: every record in the output of a full matching pass carries a
Point match geometry when the configured match type is xo and a
LineString match geometry when it is otm; and a pair whose classified
intersection shape does not match the configured match type produces no
record. -/
theorem c1_geometry_matches_type :
    (∀ cfg inter interBuf near set1 set2 recs r,
        identifyAll cfg inter interBuf near set1 set2 = Except.ok recs →
        r ∈ recs →
        (cfg.matchtype = MatchType.xo → ∃ p, r.2 = Geom.point p) ∧
        (cfg.matchtype = MatchType.otm → ∃ ps, r.2 = Geom.lineString ps)) ∧
    (∀ cfg near g t1 t2, shapeMatches g cfg.matchtype = false →
        (processPair cfg near g t1 t2).1 = Except.ok none) := by
  constructor
  · intro cfg inter interBuf near set1 set2 recs r hall hr
    simp only [identifyAll] at hall
    refine outerLoop_mem cfg inter interBuf near set2
      (fun r => (cfg.matchtype = MatchType.xo → ∃ p, r.2 = Geom.point p) ∧
                (cfg.matchtype = MatchType.otm → ∃ ps, r.2 = Geom.lineString ps))
      ?_ set1 [] recs hall (by simp) r hr
    intro t1 t2 r0 hps
    rcases pairStep_emit cfg inter interBuf near t1 t2 r0 hps with
      ⟨hmt, p, hp⟩ | ⟨hmt, ps, hps2⟩
    · refine ⟨fun _ => ⟨p, hp⟩, fun hot => ?_⟩
      rw [hmt] at hot
      simp at hot
    · refine ⟨fun hxo => ?_, fun _ => ⟨ps, hps2⟩⟩
      rw [hmt] at hxo
      simp at hxo
  · exact processPair_mismatch

set_option maxRecDepth 100000 in
theorem c1_witness :
    (cfgXo.matchtype = MatchType.xo → ∃ p, recX.2 = Geom.point p) ∧
    (cfgXo.matchtype = MatchType.otm → ∃ ps, recX.2 = Geom.lineString ps) :=
  c1_geometry_matches_type.1 cfgXo interPoint interBufPoint nearTrue [tA] [tB] [recX] recX
    (by with_unfolding_all rfl) (List.mem_singleton.mpr rfl)

/-- C9: a track with fewer than 2 samples gets no polyline, and dropping
all such tracks from either track set leaves the output of a full
matching pass unchanged — they contribute no candidate pairs and no
records. -/
theorem c9_short_tracks_no_contribution :
    (∀ samples : List Sample, samples.length < 2 → mkPolyline samples = none) ∧
    (∀ cfg inter interBuf near set1 set2,
        identifyAll cfg inter interBuf near set1 set2 =
        identifyAll cfg inter interBuf near
          (set1.filter (fun t => decide (2 ≤ t.samples.length)))
          (set2.filter (fun t => decide (2 ≤ t.samples.length)))) := by
  constructor
  · intro samples h
    exact mkPolyline_none h
  · intro cfg inter interBuf near set1 set2
    simp only [identifyAll]
    exact outerLoop_filter_short cfg inter interBuf near set2 set1 []

theorem c9_witness : mkPolyline tShort.samples = none :=
  c9_short_tracks_no_contribution.1 tShort.samples (by decide)

/-- C5 counterexample: an empty run does terminate, but `sys.exit()` with
no argument exits with status 0, so the claim that the exit status is
non-zero is false. -/
theorem c5_counterexample :
    exportShp [] = ExportOutcome.exited 0 ∧
    ¬ ∃ s, exportShp [] = ExportOutcome.exited s ∧ s ≠ 0 := by
  constructor
  · rfl
  · rintro ⟨s, hs, hne⟩
    have h0 : exportShp ([] : List (Attrs × Geom)) = ExportOutcome.exited 0 := rfl
    rw [h0] at hs
    cases hs
    exact hne rfl

/-- C5 (amended): a run with zero Match records logs a critical message
and terminates immediately via `sys.exit()`, but with exit status 0 (the
interpreter default), not a non-zero status; a non-empty run writes the
output file. -/
theorem c5_empty_run_exits_with_status_zero :
    (∀ recs : List (Attrs × Geom), recs.length = 0 →
        exportShp recs = ExportOutcome.exited 0) ∧
    (∀ recs : List (Attrs × Geom), 0 < recs.length →
        exportShp recs = ExportOutcome.wroteFile recs.length) := by
  constructor
  · intro recs h
    unfold exportShp
    rw [if_neg (by omega)]
  · intro recs h
    unfold exportShp
    rw [if_pos h]

theorem c5_witness :
    exportShp ([] : List (Attrs × Geom)) = ExportOutcome.exited 0 ∧
    exportShp [recX] = ExportOutcome.wroteFile 1 :=
  ⟨c5_empty_run_exits_with_status_zero.1 [] rfl,
   c5_empty_run_exits_with_status_zero.2 [recX] (by decide)⟩

/-- C6 counterexample: under xo an empty intersection result (an empty
LineString — shapely returns a typed empty or an empty
GeometryCollection, never a Point) is not Point-typed, so the dispatch
falls through to the unsupported-intersect-type branch and logs a
warning; the pair is thus not excluded silently. -/
theorem c6_counterexample :
    Geom.isEmptyG gEmptyLine = true ∧
    ¬ ((processPair cfgXo nearTrue gEmptyLine tA tB).1 = Except.ok none ∧
       (processPair cfgXo nearTrue gEmptyLine tA tB).2 = false) ∧
    (processPair cfgXo nearTrue gEmptyLine tA tB).2 = true := by
  refine ⟨rfl, ?_, rfl⟩
  rintro ⟨-, h2⟩
  exact absurd h2 (by decide)

/-- C6 (amended): a temporally admitted pair whose geometric intersection
is empty yields no Match record and no exception, and processing
continues with the next pair; but the exclusion is not always silent —
when the runtime type of the empty result differs from the class the
configured match type dispatches on (always under xo), an
unsupported-intersect-type warning is logged.  The hypothesis on the
attribution oracle states that no point lies in the buffer of an empty
geometry. -/
theorem c6_empty_intersection_no_record_no_raise (cfg : Config)
    (near : Geom → Pt → Bool) (g : Geom) (t1 t2 : Track)
    (hemp : Geom.isEmptyG g = true) (hnear : ∀ p, near g p = false) :
    (processPair cfg near g t1 t2).1 = Except.ok none := by
  obtain ⟨mt, bs, dt⟩ := cfg
  cases g with
  | point p => simp [Geom.isEmptyG] at hemp
  | lineString ps =>
    cases mt with
    | xo => rfl
    | otm =>
      have hz : pointsInMatch (near (Geom.lineString ps)) t1.samples = [] :=
        pointsInMatch_false _ _ (fun p => hnear p)
      have hnone : identifyOTMs (near (Geom.lineString ps))
          (near (Geom.lineString ps)) t1 t2 = none := by
        apply identifyOTMs_below
        left
        rw [hz]
        decide
      simp only [processPair, hnone]
  | multiPoint ps => cases mt <;> rfl
  | multiLineString ps => cases mt <;> rfl
  | polygon ps => cases mt <;> rfl
  | geometryCollection n => cases mt <;> rfl

theorem c6_witness :
    (processPair cfgOtm nearFalse gEmptyLine tA tB).1 = Except.ok none :=
  c6_empty_intersection_no_record_no_raise cfgOtm nearFalse gEmptyLine tA tB rfl
    (fun _ => rfl)

/-- C7 counterexample: with an unrecognized AOI the run does stop, but
not by a critical log — evaluating the f-string of the critical log call
itself raises AttributeError (the attribute `aoi` does not exist on the
object; the value lives in the configuration), so no critical message is
logged. -/
theorem c7_counterexample :
    (selectAoi "foo" [] []).result = Except.error PyErr.attributeError ∧
    ¬ ((selectAoi "foo" [] []).criticalLogged = true) := by
  exact ⟨rfl, by decide⟩

/-- C7 (amended): an unrecognized AOI identifier aborts the run with an
uncaught AttributeError raised while building the critical log message;
no critical message is actually logged before the abort. -/
theorem c7_unrecognized_aoi (aoi : String) (lat lon : List ℚ)
    (h1 : aoi ≠ "arc") (h2 : aoi ≠ "ant") :
    selectAoi aoi lat lon =
      { result := Except.error PyErr.attributeError, criticalLogged := false } := by
  unfold selectAoi
  rw [if_neg h1, if_neg h2]

theorem c7_witness :
    selectAoi "foo" [] [] =
      { result := Except.error PyErr.attributeError, criticalLogged := false } :=
  c7_unrecognized_aoi "foo" [] [] (by decide) (by decide)

/-- C8: the chained `np.where` calls of `_compile_shp` make the stored
`fidx` values positions within the AOI-filtered subset instead of
positions within the full source-file arrays.  On a file whose first
sample fails the arc AOI test and whose remaining two samples pass (all
flagged ocean, no dist-to-coast data), the code stores [0, 1] while the
positions of the eligible samples in the file are [1, 2]. -/
theorem c8_fidx_subset_relative :
    compileFidx "arc" [0, 70, 70] [-100, -100, -100] [1, 1, 1] none 1 = Except.ok [0, 1] ∧
    specFileIndices "arc" [0, 70, 70] [-100, -100, -100] [1, 1, 1] none 1 = [1, 2] ∧
    ([0, 1] : List ℕ) ≠ [1, 2] := by
  refine ⟨by with_unfolding_all rfl, by with_unfolding_all rfl, by decide⟩

end XoOtm
